import Mathlib

/-!
Verification of the year-over-year growth computation in
`examples/basic_usage.py` (`calculate_growth_rates`) of the finbro
repository.  Records are embedded with exact rational arithmetic in
place of Python floats; the optional dictionary fields (`None` values)
become `Option ℚ`; the diagnostic `print` on the short-input path is
made explicit as a list of emitted messages.
-/

/-- The fields of a `FinancialMetric` record that `calculate_growth_rates`
reads: `ticker`, `year`, `revenue`, `net_income`, `gross_profit`,
`operating_income`.  All other fields of the Python model are never
accessed by the growth computation and are omitted. -/
structure FinancialRecord where
  ticker : String
  year : Int
  revenue : ℚ
  net_income : ℚ
  gross_profit : ℚ
  operating_income : ℚ
deriving DecidableEq, Repr

/-- One element of the `growth_rates` list built by the loop body:
the dictionary
`{ticker, year, revenue_growth, net_income_growth, gross_margin,
operating_margin, net_margin}` where a field holding Python `None`
is `none`. -/
structure GrowthEntry where
  ticker : String
  year : Int
  revenue_growth : ℚ
  net_income_growth : Option ℚ
  gross_margin : Option ℚ
  operating_margin : Option ℚ
  net_margin : Option ℚ
deriving DecidableEq, Repr

/-- The `growth` dictionary built in the loop body for a pair
`(previous, current)` (only reached when `previous.revenue != 0`):
each conditional expression `X if cond else None` becomes an
`if cond then some X else none`. -/
def mkGrowth (previous current : FinancialRecord) : GrowthEntry :=
  { ticker := current.ticker
    year := current.year
    revenue_growth := (current.revenue - previous.revenue) / previous.revenue * 100
    net_income_growth :=
      if previous.net_income ≠ 0 then
        some ((current.net_income - previous.net_income) / previous.net_income * 100)
      else none
    gross_margin :=
      if current.revenue ≠ 0 then some (current.gross_profit / current.revenue * 100)
      else none
    operating_margin :=
      if current.revenue ≠ 0 then some (current.operating_income / current.revenue * 100)
      else none
    net_margin :=
      if current.revenue ≠ 0 then some (current.net_income / current.revenue * 100)
      else none }

/-- The loop `for i in range(1, len(sorted_metrics))` over the sorted
list: each iteration pairs `previous = sorted_metrics[i-1]` with
`current = sorted_metrics[i]`, skips the pair (`continue`) when
`previous.revenue == 0`, and otherwise appends `mkGrowth previous
current`.  The recursion steps one position at a time, so the current
record of a skipped pair is still the previous record of the next
pair. -/
def growthEntries : List FinancialRecord → List GrowthEntry
  | previous :: current :: rest =>
      if previous.revenue = 0 then growthEntries (current :: rest)
      else mkGrowth previous current :: growthEntries (current :: rest)
  | _ => []

/-- The sort key of `sorted(metrics, key=lambda x: x.year)`. -/
def yearLE (a b : FinancialRecord) : Prop := a.year ≤ b.year

instance : DecidableRel yearLE := fun a b => inferInstanceAs (Decidable (a.year ≤ b.year))

instance : IsTotal FinancialRecord yearLE := ⟨fun a b => Int.le_total a.year b.year⟩

instance : IsTrans FinancialRecord yearLE := ⟨fun _ _ _ h1 h2 => le_trans h1 h2⟩

/-- `sorted(metrics, key=lambda x: x.year)`: a stable sort by year.
Python's `sorted` is stable, as is insertion sort with a reflexive
total preorder. -/
def sortByYear (metrics : List FinancialRecord) : List FinancialRecord :=
  List.insertionSort yearLE metrics

/-- `calculate_growth_rates`.  The first component records the lines
printed (the function prints exactly when fewer than two records are
supplied); the second is the returned collection of growth entries
(the short-input path returns the empty dictionary `{}`, i.e. an empty
collection of entries). -/
def calculate_growth_rates (metrics : List FinancialRecord) :
    List String × List GrowthEntry :=
  if metrics.length < 2 then
    (["Need at least two years of data to calculate growth rates"], [])
  else
    ([], growthEntries (sortByYear metrics))

/-- The value returned by `calculate_growth_rates`, the operation the
specification calls `computeGrowth`. -/
def computeGrowth (metrics : List FinancialRecord) : List GrowthEntry :=
  (calculate_growth_rates metrics).2

/-- Python division, which raises `ZeroDivisionError` on a zero
denominator: `none` models the raised exception. -/
def pydiv (a b : ℚ) : Option ℚ :=
  if b = 0 then none else some (a / b)

/-- The loop body with every division checked: any division by zero
aborts the whole computation with `none`, exactly as an uncaught
`ZeroDivisionError` would. -/
def mkGrowthChecked (previous current : FinancialRecord) : Option GrowthEntry := do
  let rg ← pydiv (current.revenue - previous.revenue) previous.revenue
  let nig ←
    if previous.net_income ≠ 0 then do
      let v ← pydiv (current.net_income - previous.net_income) previous.net_income
      pure (some (v * 100))
    else pure none
  let gm ←
    if current.revenue ≠ 0 then do
      let v ← pydiv current.gross_profit current.revenue
      pure (some (v * 100))
    else pure none
  let om ←
    if current.revenue ≠ 0 then do
      let v ← pydiv current.operating_income current.revenue
      pure (some (v * 100))
    else pure none
  let nm ←
    if current.revenue ≠ 0 then do
      let v ← pydiv current.net_income current.revenue
      pure (some (v * 100))
    else pure none
  pure
    { ticker := current.ticker
      year := current.year
      revenue_growth := rg * 100
      net_income_growth := nig
      gross_margin := gm
      operating_margin := om
      net_margin := nm }

/-- The loop with checked divisions. -/
def growthEntriesChecked : List FinancialRecord → Option (List GrowthEntry)
  | previous :: current :: rest =>
      if previous.revenue = 0 then growthEntriesChecked (current :: rest)
      else do
        let e ← mkGrowthChecked previous current
        let es ← growthEntriesChecked (current :: rest)
        pure (e :: es)
  | _ => pure []

/-- `calculate_growth_rates` with checked divisions: `none` models an
uncaught `ZeroDivisionError` escaping the function. -/
def calculate_growth_rates_checked (metrics : List FinancialRecord) :
    Option (List String × List GrowthEntry) :=
  if metrics.length < 2 then
    some (["Need at least two years of data to calculate growth rates"], [])
  else do
    let es ← growthEntriesChecked (sortByYear metrics)
    pure ([], es)

/-! ### Basic equations for `growthEntries` -/

theorem growthEntries_nil : growthEntries [] = [] := rfl

theorem growthEntries_singleton (a : FinancialRecord) : growthEntries [a] = [] := rfl

theorem growthEntries_cons (p c : FinancialRecord) (rest : List FinancialRecord) :
    growthEntries (p :: c :: rest)
      = if p.revenue = 0 then growthEntries (c :: rest)
        else mkGrowth p c :: growthEntries (c :: rest) := rfl

theorem growthEntries_subset_cons (a : FinancialRecord) (t : List FinancialRecord) :
    growthEntries t ⊆ growthEntries (a :: t) := by
  cases t with
  | nil => intro e he; simp [growthEntries_nil] at he
  | cons c rest =>
      rw [growthEntries_cons]
      by_cases h : a.revenue = 0
      · rw [if_pos h]
        exact fun e he => he
      · rw [if_neg h]
        exact fun e he => List.mem_cons_of_mem _ he

theorem growthEntries_subset_append (l1 t : List FinancialRecord) :
    growthEntries t ⊆ growthEntries (l1 ++ t) := by
  induction l1 with
  | nil => simp
  | cons a l1 ih => exact fun e he => growthEntries_subset_cons a (l1 ++ t) (ih he)

theorem mkGrowth_mem_growthEntries (l1 l2 : List FinancialRecord)
    (previous current : FinancialRecord) (hrev : previous.revenue ≠ 0) :
    mkGrowth previous current ∈ growthEntries (l1 ++ previous :: current :: l2) := by
  apply growthEntries_subset_append
  rw [growthEntries_cons, if_neg hrev]
  exact List.mem_cons_self _ _

theorem sortByYear_length (metrics : List FinancialRecord) :
    (sortByYear metrics).length = metrics.length :=
  List.length_insertionSort _ _

theorem mkGrowth_mem_computeGrowth (metrics l1 l2 : List FinancialRecord)
    (previous current : FinancialRecord)
    (hs : sortByYear metrics = l1 ++ previous :: current :: l2)
    (hrev : previous.revenue ≠ 0) :
    mkGrowth previous current ∈ computeGrowth metrics := by
  have hlen : ¬ metrics.length < 2 := by
    have h2 := sortByYear_length metrics
    rw [hs] at h2
    simp only [List.length_append, List.length_cons] at h2
    omega
  unfold computeGrowth calculate_growth_rates
  rw [if_neg hlen]
  rw [hs]
  exact mkGrowth_mem_growthEntries l1 l2 previous current hrev

/-! ### Characterization as a `filterMap` over consecutive pairs -/

theorem growthEntries_eq_filterMap : ∀ s : List FinancialRecord,
    growthEntries s
      = (s.zip s.tail).filterMap
          (fun pc => if pc.1.revenue = 0 then none else some (mkGrowth pc.1 pc.2))
  | [] => rfl
  | [_] => rfl
  | p :: c :: rest => by
      have ih := growthEntries_eq_filterMap (c :: rest)
      rw [growthEntries_cons]
      by_cases h : p.revenue = 0 <;>
        simp [h, List.zip_cons_cons, List.filterMap_cons, ih]

theorem zip_tail_eq_nil (s : List FinancialRecord) (h : s.length < 2) :
    s.zip s.tail = [] := by
  cases s with
  | nil => rfl
  | cons a t =>
      cases t with
      | nil => rfl
      | cons b t2 => simp at h; omega

theorem computeGrowth_eq_filterMap (metrics : List FinancialRecord) :
    computeGrowth metrics
      = ((sortByYear metrics).zip (sortByYear metrics).tail).filterMap
          (fun pc => if pc.1.revenue = 0 then none else some (mkGrowth pc.1 pc.2)) := by
  by_cases h : metrics.length < 2
  · have hz : (sortByYear metrics).zip (sortByYear metrics).tail = [] :=
      zip_tail_eq_nil _ (by rw [sortByYear_length]; exact h)
    simp [computeGrowth, calculate_growth_rates, h, hz]
  · simp [computeGrowth, calculate_growth_rates, h, growthEntries_eq_filterMap]

theorem filterMap_eraseIdx_eq {α β : Type} (f : α → Option β) :
    ∀ (l : List α) (i : Nat) (h : i < l.length), f (l.get ⟨i, h⟩) = none →
      (l.eraseIdx i).filterMap f = l.filterMap f
  | a :: t, 0, _, hf => by
      simp only [List.get] at hf
      simp [List.eraseIdx, List.filterMap_cons, hf]
  | a :: t, i + 1, h, hf => by
      have h2 : i < t.length := Nat.lt_of_succ_lt_succ h
      have ih := filterMap_eraseIdx_eq f t i h2 (by simpa [List.get] using hf)
      simp only [List.eraseIdx, List.filterMap_cons]
      cases f a <;> simp [ih]

/-! ### Order-theoretic facts about `sortByYear` -/

/-- Strict year order, used to show the sorted list is unique when the
years are pairwise distinct. -/
def yearLT (a b : FinancialRecord) : Prop := a.year < b.year

instance : IsAntisymm FinancialRecord yearLT :=
  ⟨fun _ _ h1 h2 => absurd (lt_trans h1 h2) (lt_irrefl _)⟩

theorem sortByYear_perm (l : List FinancialRecord) : (sortByYear l).Perm l :=
  List.perm_insertionSort yearLE l

theorem sortByYear_sorted (l : List FinancialRecord) : (sortByYear l).Sorted yearLE :=
  List.sorted_insertionSort yearLE l

theorem sortByYear_pairwise_lt (l : List FinancialRecord)
    (hd : (l.map FinancialRecord.year).Nodup) : (sortByYear l).Pairwise yearLT := by
  have h1 : (sortByYear l).Pairwise yearLE := sortByYear_sorted l
  have hmap : ((sortByYear l).map FinancialRecord.year).Perm (l.map FinancialRecord.year) :=
    (sortByYear_perm l).map FinancialRecord.year
  have h2 : ((sortByYear l).map FinancialRecord.year).Nodup := hmap.symm.nodup hd
  have h3 : (sortByYear l).Pairwise (fun a b => a.year ≠ b.year) :=
    List.pairwise_map.mp h2
  exact (h1.and h3).imp (fun h => lt_of_le_of_ne h.1 h.2)

theorem sortByYear_eq_of_perm (l1 l2 : List FinancialRecord) (hperm : l1.Perm l2)
    (hd : (l1.map FinancialRecord.year).Nodup) : sortByYear l1 = sortByYear l2 := by
  have hd2 : (l2.map FinancialRecord.year).Nodup := ((hperm.map _).nodup) hd
  have hp : (sortByYear l1).Perm (sortByYear l2) :=
    (sortByYear_perm l1).trans (hperm.trans (sortByYear_perm l2).symm)
  exact List.eq_of_perm_of_sorted hp (sortByYear_pairwise_lt l1 hd)
    (sortByYear_pairwise_lt l2 hd2)

/-! ### Years of emitted entries -/

theorem growthEntries_year_mem : ∀ (s : List FinancialRecord) (e : GrowthEntry),
    e ∈ growthEntries s → e.year ∈ s.tail.map FinancialRecord.year
  | [], e, he => by simp [growthEntries_nil] at he
  | [a], e, he => by simp [growthEntries_singleton] at he
  | p :: c :: rest, e, he => by
      rw [growthEntries_cons] at he
      by_cases h : p.revenue = 0
      · rw [if_pos h] at he
        have ih := growthEntries_year_mem (c :: rest) e he
        simp only [List.tail_cons] at ih ⊢
        exact List.mem_cons_of_mem _ (by simpa using ih)
      · rw [if_neg h] at he
        rcases List.mem_cons.mp he with he1 | he2
        · subst he1
          simp [mkGrowth]
        · have ih := growthEntries_year_mem (c :: rest) e he2
          simp only [List.tail_cons] at ih ⊢
          exact List.mem_cons_of_mem _ (by simpa using ih)

theorem growthEntries_pairwise_year : ∀ s : List FinancialRecord, s.Pairwise yearLT →
    (growthEntries s).Pairwise (fun e1 e2 : GrowthEntry => e1.year < e2.year)
  | [], _ => by simp [growthEntries_nil]
  | [a], _ => by simp [growthEntries_singleton]
  | p :: c :: rest, hp => by
      have hp2 : (c :: rest).Pairwise yearLT := hp.of_cons
      have ih := growthEntries_pairwise_year (c :: rest) hp2
      rw [growthEntries_cons]
      by_cases h : p.revenue = 0
      · rw [if_pos h]; exact ih
      · rw [if_neg h]
        refine List.Pairwise.cons ?_ ih
        intro e he
        have hy : e.year ∈ rest.map FinancialRecord.year := by
          simpa using growthEntries_year_mem (c :: rest) e he
        rcases List.mem_map.mp hy with ⟨r, hr, hyr⟩
        have hcr : c.year < r.year := (List.pairwise_cons.mp hp2).1 r hr
        show (mkGrowth p c).year < e.year
        have hmk : (mkGrowth p c).year = c.year := rfl
        rw [hmk, ← hyr]
        exact hcr

/-! ### The checked computation never divides by zero -/

theorem mkGrowthChecked_eq_some (previous current : FinancialRecord)
    (hrev : previous.revenue ≠ 0) :
    mkGrowthChecked previous current = some (mkGrowth previous current) := by
  unfold mkGrowthChecked mkGrowth pydiv
  by_cases h1 : previous.net_income = 0 <;> by_cases h2 : current.revenue = 0 <;>
    simp [hrev, h1, h2]

theorem growthEntriesChecked_nil : growthEntriesChecked [] = some [] := rfl

theorem growthEntriesChecked_singleton (a : FinancialRecord) :
    growthEntriesChecked [a] = some [] := rfl

theorem growthEntriesChecked_cons (p c : FinancialRecord) (rest : List FinancialRecord) :
    growthEntriesChecked (p :: c :: rest)
      = if p.revenue = 0 then growthEntriesChecked (c :: rest)
        else (mkGrowthChecked p c).bind (fun e =>
          (growthEntriesChecked (c :: rest)).bind (fun es => some (e :: es))) := rfl

theorem growthEntriesChecked_eq_some : ∀ s : List FinancialRecord,
    growthEntriesChecked s = some (growthEntries s)
  | [] => rfl
  | [_] => rfl
  | p :: c :: rest => by
      have ih := growthEntriesChecked_eq_some (c :: rest)
      rw [growthEntriesChecked_cons, growthEntries_cons]
      by_cases h : p.revenue = 0
      · rw [if_pos h, if_pos h]; exact ih
      · rw [if_neg h, if_neg h, mkGrowthChecked_eq_some p c h, ih]
        rfl

/-! ### Concrete records used by witnesses and counterexamples -/

/-- Year 2020, revenue 100, net income 10 (the spec's scenario data). -/
def recC : FinancialRecord :=
  { ticker := "AAPL", year := 2020, revenue := 100, net_income := 10,
    gross_profit := 50, operating_income := 30 }

/-- Year 2021, revenue 150, net income 20 (the spec's scenario data). -/
def recD : FinancialRecord :=
  { ticker := "AAPL", year := 2021, revenue := 150, net_income := 20,
    gross_profit := 60, operating_income := 45 }

/-- Year 2020 with zero revenue. -/
def recZ : FinancialRecord :=
  { ticker := "AAPL", year := 2020, revenue := 0, net_income := 5,
    gross_profit := 5, operating_income := 5 }

/-- Year 2021 with zero revenue. -/
def recW : FinancialRecord :=
  { ticker := "AAPL", year := 2021, revenue := 0, net_income := 7,
    gross_profit := 6, operating_income := 5 }

/-- Year 2020, first of a duplicate-year pair. -/
def recA : FinancialRecord :=
  { ticker := "AAA", year := 2020, revenue := 100, net_income := 10,
    gross_profit := 50, operating_income := 30 }

/-- Year 2020 again, second of a duplicate-year pair. -/
def recB : FinancialRecord :=
  { ticker := "AAA", year := 2020, revenue := 200, net_income := 20,
    gross_profit := 80, operating_income := 60 }

/-! ### The claims -/

/-- C3: for every input sequence containing fewer than two records
(zero or one), `computeGrowth` returns an empty sequence. -/
theorem computeGrowth_short_input (metrics : List FinancialRecord)
    (h : metrics.length < 2) : computeGrowth metrics = [] := by
  simp [computeGrowth, calculate_growth_rates, h]

/-- Witness for C3 at the one-record input `[recC]`. -/
theorem computeGrowth_short_input_witness : computeGrowth [recC] = [] :=
  computeGrowth_short_input [recC] (by decide)

/-- C1: for every adjacent pair `(previous, current)` of the year-sorted
input with `previous.revenue ≠ 0`, the emitted entry's `revenue_growth`
equals `(current.revenue - previous.revenue) / previous.revenue * 100`. -/
theorem computeGrowth_revenue_growth (metrics l1 l2 : List FinancialRecord)
    (previous current : FinancialRecord)
    (hs : sortByYear metrics = l1 ++ previous :: current :: l2)
    (hrev : previous.revenue ≠ 0) :
    mkGrowth previous current ∈ computeGrowth metrics ∧
      (mkGrowth previous current).revenue_growth
        = (current.revenue - previous.revenue) / previous.revenue * 100 :=
  ⟨mkGrowth_mem_computeGrowth metrics l1 l2 previous current hs hrev, rfl⟩

/-- Witness for C1 at the two-record input `[recC, recD]`. -/
theorem computeGrowth_revenue_growth_witness :
    mkGrowth recC recD ∈ computeGrowth [recC, recD] ∧
      (mkGrowth recC recD).revenue_growth
        = (recD.revenue - recC.revenue) / recC.revenue * 100 :=
  computeGrowth_revenue_growth [recC, recD] [] [] recC recD (by decide) (by decide)

/-- C4: for an adjacent pair with `previous.revenue ≠ 0` and
`current.revenue = 0`, the emitted entry has all three margin fields
absent, while `revenue_growth` is still computed and
`net_income_growth` is present iff `previous.net_income ≠ 0`. -/
theorem computeGrowth_margins_absent (metrics l1 l2 : List FinancialRecord)
    (previous current : FinancialRecord)
    (hs : sortByYear metrics = l1 ++ previous :: current :: l2)
    (hrev : previous.revenue ≠ 0) (hcur : current.revenue = 0) :
    mkGrowth previous current ∈ computeGrowth metrics ∧
      (mkGrowth previous current).gross_margin = none ∧
      (mkGrowth previous current).operating_margin = none ∧
      (mkGrowth previous current).net_margin = none ∧
      (mkGrowth previous current).revenue_growth
        = (current.revenue - previous.revenue) / previous.revenue * 100 ∧
      ((mkGrowth previous current).net_income_growth.isSome
        ↔ previous.net_income ≠ 0) := by
  refine ⟨mkGrowth_mem_computeGrowth metrics l1 l2 previous current hs hrev,
    ?_, ?_, ?_, rfl, ?_⟩
  · simp [mkGrowth, hcur]
  · simp [mkGrowth, hcur]
  · simp [mkGrowth, hcur]
  · by_cases h : previous.net_income = 0 <;> simp [mkGrowth, h]

/-- Witness for C4 at `[recC, recW]` (year-2021 revenue is zero). -/
theorem computeGrowth_margins_absent_witness :
    mkGrowth recC recW ∈ computeGrowth [recC, recW] ∧
      (mkGrowth recC recW).gross_margin = none ∧
      (mkGrowth recC recW).operating_margin = none ∧
      (mkGrowth recC recW).net_margin = none ∧
      (mkGrowth recC recW).revenue_growth
        = (recW.revenue - recC.revenue) / recC.revenue * 100 ∧
      ((mkGrowth recC recW).net_income_growth.isSome ↔ recC.net_income ≠ 0) :=
  computeGrowth_margins_absent [recC, recW] [] [] recC recW
    (by decide) (by decide) (by decide)

/-- C5: for an adjacent pair with `previous.revenue ≠ 0`, an entry is
emitted; its `net_income_growth` is absent when
`previous.net_income = 0` and otherwise equals
`(current.net_income - previous.net_income) / previous.net_income * 100`. -/
theorem computeGrowth_net_income_rule (metrics l1 l2 : List FinancialRecord)
    (previous current : FinancialRecord)
    (hs : sortByYear metrics = l1 ++ previous :: current :: l2)
    (hrev : previous.revenue ≠ 0) :
    mkGrowth previous current ∈ computeGrowth metrics ∧
      (previous.net_income = 0 → (mkGrowth previous current).net_income_growth = none) ∧
      (previous.net_income ≠ 0 → (mkGrowth previous current).net_income_growth
        = some ((current.net_income - previous.net_income) / previous.net_income * 100)) := by
  refine ⟨mkGrowth_mem_computeGrowth metrics l1 l2 previous current hs hrev, ?_, ?_⟩
  · intro h; simp [mkGrowth, h]
  · intro h; simp [mkGrowth, h]

/-- Witness for C5 at `[recC, recD]`. -/
theorem computeGrowth_net_income_rule_witness :
    mkGrowth recC recD ∈ computeGrowth [recC, recD] ∧
      (recC.net_income = 0 → (mkGrowth recC recD).net_income_growth = none) ∧
      (recC.net_income ≠ 0 → (mkGrowth recC recD).net_income_growth
        = some ((recD.net_income - recC.net_income) / recC.net_income * 100)) :=
  computeGrowth_net_income_rule [recC, recD] [] [] recC recD (by decide) (by decide)

/-- C2: when the previous record of an adjacent pair of the year-sorted
input has zero revenue, no entry is emitted for that pair: the output
equals what all the remaining pairs alone produce, whatever the other
fields of either record hold. -/
theorem computeGrowth_skips_zero_revenue_pair (metrics : List FinancialRecord)
    (i : Nat) (h : i < ((sortByYear metrics).zip (sortByYear metrics).tail).length)
    (hrev : (((sortByYear metrics).zip (sortByYear metrics).tail).get ⟨i, h⟩).1.revenue = 0) :
    computeGrowth metrics
      = ((((sortByYear metrics).zip (sortByYear metrics).tail).eraseIdx i).filterMap
          (fun pc => if pc.1.revenue = 0 then none else some (mkGrowth pc.1 pc.2))) := by
  rw [computeGrowth_eq_filterMap]
  exact (filterMap_eraseIdx_eq _ _ i h (by simp only [hrev]; simp)).symm

/-- Witness for C2 at `[recZ, recD]` (the year-2020 record has zero
revenue), taking the first (only) adjacent pair. -/
theorem computeGrowth_skips_zero_revenue_pair_witness :
    computeGrowth [recZ, recD]
      = ((((sortByYear [recZ, recD]).zip (sortByYear [recZ, recD]).tail).eraseIdx 0).filterMap
          (fun pc => if pc.1.revenue = 0 then none else some (mkGrowth pc.1 pc.2))) :=
  computeGrowth_skips_zero_revenue_pair [recZ, recD] 0 (by decide) (by decide)

/-- C6: for inputs with pairwise-distinct years, the output years are
strictly increasing, and the output depends only on the set of input
records, not their order. -/
theorem computeGrowth_sorted_perm_invariant (l1 l2 : List FinancialRecord)
    (hperm : l1.Perm l2) (hd : (l1.map FinancialRecord.year).Nodup) :
    List.Sorted (fun a b => a < b) ((computeGrowth l1).map GrowthEntry.year) ∧
      computeGrowth l1 = computeGrowth l2 := by
  constructor
  · by_cases h : l1.length < 2
    · simp [computeGrowth_short_input l1 h]
    · have hpw := growthEntries_pairwise_year (sortByYear l1) (sortByYear_pairwise_lt l1 hd)
      have : computeGrowth l1 = growthEntries (sortByYear l1) := by
        simp [computeGrowth, calculate_growth_rates, h]
      rw [this]
      exact List.pairwise_map.mpr hpw
  · unfold computeGrowth calculate_growth_rates
    rw [sortByYear_eq_of_perm l1 l2 hperm hd, hperm.length_eq]

/-- Witness for C6 at the reversed two-record input `[recD, recC]`,
a permutation of `[recC, recD]`. -/
theorem computeGrowth_sorted_perm_invariant_witness :
    List.Sorted (fun a b => a < b) ((computeGrowth [recD, recC]).map GrowthEntry.year) ∧
      computeGrowth [recD, recC] = computeGrowth [recC, recD] :=
  computeGrowth_sorted_perm_invariant [recD, recC] [recC, recD]
    (List.Perm.swap recC recD []) (by decide)

/-- C9: every division `calculate_growth_rates` performs is reached only
under a guard making its denominator nonzero: the checked computation,
in which any division by zero aborts with `none`, always succeeds and
agrees with the unchecked one, so the function is total. -/
theorem calculate_growth_rates_never_divides_by_zero (metrics : List FinancialRecord) :
    calculate_growth_rates_checked metrics = some (calculate_growth_rates metrics) := by
  unfold calculate_growth_rates_checked calculate_growth_rates
  by_cases h : metrics.length < 2
  · simp [h]
  · simp [h, growthEntriesChecked_eq_some]

/-- C10: the entries come exactly from the consecutive pairs of the
year-sorted input — a skipped pair drops only its own entry while its
current record still serves as the previous record of the next pair —
so the number of emitted entries equals the number of consecutive
positions whose predecessor has nonzero revenue. -/
theorem computeGrowth_entry_count (metrics : List FinancialRecord) :
    computeGrowth metrics
      = ((sortByYear metrics).zip (sortByYear metrics).tail).filterMap
          (fun pc => if pc.1.revenue = 0 then none else some (mkGrowth pc.1 pc.2)) ∧
      (computeGrowth metrics).length
        = (((sortByYear metrics).zip (sortByYear metrics).tail).filter
            (fun pc => decide (pc.1.revenue ≠ 0))).length := by
  refine ⟨computeGrowth_eq_filterMap metrics, ?_⟩
  rw [computeGrowth_eq_filterMap]
  generalize (sortByYear metrics).zip (sortByYear metrics).tail = l
  induction l with
  | nil => rfl
  | cons a t ih =>
      by_cases h : a.1.revenue = 0 <;>
        simp [List.filterMap_cons, List.filter_cons, h, ih]

theorem computeGrowth_pair_eq (previous current : FinancialRecord)
    (hle : yearLE previous current) (hrev : previous.revenue ≠ 0) :
    computeGrowth [previous, current] = [mkGrowth previous current] := by
  have hsort : sortByYear [previous, current] = [previous, current] := by
    simp [sortByYear, List.insertionSort, List.orderedInsert, hle]
  simp [computeGrowth, calculate_growth_rates, hsort, growthEntries_cons,
    growthEntries_singleton, hrev]

/-- Counterexample to C7: on the duplicate-year input `[recA, recB]`
(both records cover 2020), `calculate_growth_rates` surfaces no
caller-input validation failure: it silently resolves the tie and
returns an ordinary entry. -/
theorem computeGrowth_duplicate_year_silent :
    recA.year = recB.year ∧
      computeGrowth [recA, recB]
        = [{ ticker := "AAA", year := 2020, revenue_growth := 100,
             net_income_growth := some 100, gross_margin := some 40,
             operating_margin := some 30, net_margin := some 10 }] := by
  refine ⟨rfl, ?_⟩
  rw [computeGrowth_pair_eq recA recB (by decide) (by decide)]
  simp only [mkGrowth, recA, recB]
  norm_num

/-- C7 as amended: on a duplicate-year input the code does not fail; it
keeps the tied records in input order (the sort is stable) and emits
the usual entry for the pair. -/
theorem computeGrowth_duplicate_year (previous current : FinancialRecord)
    (hyear : previous.year = current.year) (hrev : previous.revenue ≠ 0) :
    computeGrowth [previous, current] = [mkGrowth previous current] :=
  computeGrowth_pair_eq previous current (le_of_eq hyear) hrev

/-- Witness for the amended C7 at the duplicate-year pair `[recA, recB]`. -/
theorem computeGrowth_duplicate_year_witness :
    computeGrowth [recA, recB] = [mkGrowth recA recB] :=
  computeGrowth_duplicate_year recA recB (by decide) (by decide)

/-- Counterexample to C8: called on the empty sequence,
`calculate_growth_rates` performs I/O — it prints a diagnostic line —
so it is not free of observable effects. -/
theorem calculate_growth_rates_prints_on_short_input :
    (calculate_growth_rates []).1
        = ["Need at least two years of data to calculate growth rates"] ∧
      (calculate_growth_rates []).1 ≠ [] := by
  constructor
  · rfl
  · simp [calculate_growth_rates]

/-- C8 as amended: the function is deterministic — equal inputs give
equal printed output and equal results — and performs no I/O at all
when at least two records are supplied. -/
theorem calculate_growth_rates_deterministic (l1 l2 : List FinancialRecord)
    (h : l1 = l2) :
    calculate_growth_rates l1 = calculate_growth_rates l2 ∧
      (2 ≤ l1.length → (calculate_growth_rates l1).1 = []) := by
  subst h
  refine ⟨rfl, fun h2 => ?_⟩
  have hn : ¬ l1.length < 2 := by omega
  simp [calculate_growth_rates, hn]

/-- Witness for the amended C8 at the two-record input `[recC, recD]`. -/
theorem calculate_growth_rates_deterministic_witness :
    calculate_growth_rates [recC, recD] = calculate_growth_rates [recC, recD] ∧
      (2 ≤ ([recC, recD] : List FinancialRecord).length →
        (calculate_growth_rates [recC, recD]).1 = []) :=
  calculate_growth_rates_deterministic [recC, recD] [recC, recD] rfl
